import Mathlib

set_option autoImplicit false

/-!
# Shallow embedding of the AptusPortal client

This file embeds `custom_components/aptus_home/aptus_client.py` (class
`AptusClient`) in Lean 4 and proves properties of the embedded operations.

Modelling conventions:

* Python strings are Lean `String`s, except where a value can carry arbitrary
  Unicode code points (including lone surrogates, which Lean `Char` cannot
  represent): the password handled by `_encrypt_password` is modelled as a
  `List Nat` of code points.
* The HTTP transport is an oracle `Nat → RawResult` indexed by the number of
  raw network calls already issued by the session; `World.calls` counts those
  calls, so "no network call is made" is `calls` staying unchanged.
* A response body is modelled at the level of the values the client extracts
  from it: the raw text, its JSON parse (`Option Json`, `none` when the body
  is not valid JSON), and its HTML parse (a list of DOM `Node`s;
  BeautifulSoup parses any input without raising, so every body has a DOM).
* `requests` exceptions and `raise_for_status` are modelled jointly: the
  oracle yields either a response or a transport-level exception, and each
  `try`/`except` of the source is translated into the corresponding case
  analysis (a non-2xx/3xx status takes the branch the source's
  `except requests.exceptions.HTTPError` takes, and so on).  An exception a
  `try` of the source does not catch is an `Except.error` of the embedded
  operation.
-/

/-- JSON values, as produced by `response.json()`. -/
inductive Json where
  | null
  | boolean (b : Bool)
  | num (n : Int)
  | str (s : String)
  | arr (elems : List Json)
  | obj (fields : List (String × Json))

/-- HTML DOM nodes, as produced by `BeautifulSoup(text, "html.parser")`. -/
inductive Node where
  | text (s : String)
  | elem (tag : String) (attrs : List (String × String)) (children : List Node)

/-- An HTTP response, at the level of detail the client inspects: final URL
after redirects, status code, body text, and the body's JSON and HTML parses. -/
structure HttpResponse where
  status : Nat
  url : String
  text : String
  json : Option Json
  dom : List Node

/-- The outcome of one raw network call of the underlying `requests` session:
either a response, or a transport-level exception
(`requests.exceptions.RequestException` / `TooManyRedirects`). -/
inductive RawResult where
  | ok (resp : HttpResponse)
  | transportError (msg : String)
  | tooManyRedirects

def RawResult.isOk : RawResult → Bool
  | .ok _ => true
  | _ => false

/-- Python exceptions that can escape an embedded operation (anything the
source code does not catch). -/
inductive PyExc where
  | requestException (msg : String)
  | tooManyRedirects
  | valueError
  | attributeError
  | indexError
  | typeError
deriving DecidableEq

/-- The discriminated values `AptusClient._request` can return.  In Python all
of these are dicts (tagged by their `"error"` key) except `json` with a
non-object payload and `text`, which are the raw decoded JSON value and the
raw body string. -/
inductive ReqOutcome where
  | notLoggedIn
  | json (j : Json)
  | text (t : String)
  | jsonDecodeError (rawText : String)
  | apiError (message : Json) (statusText : Json) (httpCode : Nat)
  | httpError (message : String) (rawResponse : Option String) (httpCode : Option Nat)
  | requestException (message : String)

/-- Python's `isinstance(result, dict)` on a `_request` result. -/
def ReqOutcome.isDict : ReqOutcome → Bool
  | .json (Json.obj _) => true
  | .json _ => false
  | .text _ => false
  | _ => true

/-- Python's `isinstance(result, str)` on a `_request` result. -/
def ReqOutcome.isStr : ReqOutcome → Bool
  | .text _ => true
  | _ => false

/-- One scraped lock record, `{"id": ..., "name": ..., "raw_id_attr": ...}`. -/
structure LockRecord where
  id : Int
  name : String
  raw_id_attr : String
deriving DecidableEq

/-- The mutable state of an `AptusClient` instance: credentials, the
`_logged_in` flag, the scraped token and salt, and the session's default
headers (`self.session.headers`). -/
structure ClientState where
  base_url : String
  username : Option String
  password : Option String
  logged_in : Bool
  request_verification_token : Option String
  password_salt : Option String
  headers : List (String × String)

/-- The transport world: the oracle of raw-call outcomes and the number of
raw network calls issued so far. -/
structure World where
  oracle : Nat → RawResult
  calls : Nat

/-- Issue one raw network call: consume the next oracle entry. -/
def rawCall (w : World) : RawResult × World :=
  (w.oracle w.calls, { w with calls := w.calls + 1 })

/-! ## Association lists (Python dicts / attribute sets / header sets) -/

/-- Look up the first binding of `k` (Python dict lookup; dict keys are
unique, so first = only). -/
def alGet {α : Type} : List (String × α) → String → Option α
  | [], _ => none
  | (k', v) :: rest, k => if k' = k then some v else alGet rest k

/-- Assignment `d[k] = v`: replace the value of an existing binding in place, else
append a new binding (Python dicts keep insertion order on update). -/
def alSet {α : Type} : List (String × α) → String → α → List (String × α)
  | [], k, v => [(k, v)]
  | (k', v') :: rest, k, v =>
      if k' = k then (k, v) :: rest else (k', v') :: alSet rest k v

/-- Removal `d.pop(k, None)`: drop the binding of `k`, if present. -/
def alErase {α : Type} : List (String × α) → String → List (String × α)
  | [], _ => []
  | (k', v') :: rest, k => if k' = k then rest else (k', v') :: alErase rest k

/-! ## Python string / int helpers -/

/-- Containment `needle in hay` on lists of characters. -/
def listContainsSub (needle : List Char) : List Char → Bool
  | [] => needle.isEmpty
  | c :: rest => needle.isPrefixOf (c :: rest) || listContainsSub needle rest

/-- Containment `needle in hay` on Python strings. -/
def strContains (hay needle : String) : Bool :=
  listContainsSub needle.toList hay.toList

/-- Python's `s.startswith(pre)`. -/
def strStarts (s pre : String) : Bool :=
  pre.toList.isPrefixOf s.toList

/-- Python's `str.strip()`: drop leading and trailing whitespace. -/
def pyStrip (s : String) : String :=
  String.mk
    (((s.toList.dropWhile (fun c => c.isWhitespace)).reverse.dropWhile
      (fun c => c.isWhitespace)).reverse)

/-- Python's `s.split(sep)` for a one-character separator. -/
def splitOnChar (sep : Char) : List Char → List (List Char)
  | [] => [[]]
  | c :: rest =>
    let r := splitOnChar sep rest
    if c = sep then [] :: r
    else
      match r with
      | [] => [[c]]
      | g :: gs => (c :: g) :: gs

/-- Models `s.split("_")` as a list of strings. -/
def splitUnderscore (s : String) : List String :=
  (splitOnChar '_' s.toList).map (fun l => String.mk l)

/-- The whitespace-separated words of a string (how BeautifulSoup reads a
`class` attribute). -/
def classWords : List Char → List Char → List String
  | [], acc => [String.mk acc.reverse]
  | c :: rest, acc =>
      if c.isWhitespace then String.mk acc.reverse :: classWords rest []
      else classWords rest (c :: acc)

/-- Accumulate decimal digits; fails on the first non-digit. -/
def parseDigitsAux : List Char → Nat → Option Nat
  | [], acc => some acc
  | c :: rest, acc =>
      if c.isDigit then parseDigitsAux rest (acc * 10 + (c.toNat - 48)) else none

/-- Python's `int(s)` on the inputs this client feeds it: optional surrounding
whitespace, an optional sign, then decimal digits; `none` models the
`ValueError`.  (Python's `int` additionally accepts underscore digit
separators and non-ASCII decimal digits; no such input occurs in this
client's call sites or in the verified claims.) -/
def pyIntParse (s : String) : Option Int :=
  let cs := s.toList.dropWhile (fun c => c.isWhitespace)
  let cs := (cs.reverse.dropWhile (fun c => c.isWhitespace)).reverse
  match cs with
  | [] => none
  | '+' :: rest =>
      match rest with
      | [] => none
      | _ => (parseDigitsAux rest 0).map Int.ofNat
  | '-' :: rest =>
      match rest with
      | [] => none
      | _ => (parseDigitsAux rest 0).map (fun n => -(Int.ofNat n))
  | _ => (parseDigitsAux cs 0).map Int.ofNat

/-- Python's `^` on an `int` key and a nonnegative code point, in two's
complement: for `x = -(a+1)` (bitwise `~a`), `x ^ c = ~(a ^ c) = -((a^c)+1)`. -/
def pyXorIntNat : Int → Nat → Int
  | .ofNat a, c => .ofNat (a ^^^ c)
  | .negSucc a, c => .negSucc (a ^^^ c)

/-- Python's `chr`: valid for code points `0..0x10FFFF` (lone surrogates
included), `ValueError` outside that range. -/
def pyChr (code : Int) : Except PyExc Nat :=
  if 0 ≤ code ∧ code ≤ 1114111 then .ok code.toNat else .error .valueError

/-! ## DOM traversal (BeautifulSoup operations) -/

def nodeTag : Node → Option String
  | .elem t _ _ => some t
  | .text _ => none

def nodeAttr : Node → String → Option String
  | .text _, _ => none
  | .elem _ attrs _, k => alGet attrs k

def nodeChildren : Node → List Node
  | .text _ => []
  | .elem _ _ cs => cs

mutual

/-- BeautifulSoup's `soup.find(...)` restricted to one subtree: first match in pre-order,
the node itself included. -/
def findInNode (p : Node → Bool) : Node → Option Node
  | .text s => if p (.text s) then some (.text s) else none
  | .elem t a cs =>
      if p (.elem t a cs) then some (.elem t a cs) else findInNodes p cs

/-- First match in pre-order over a forest (document order). -/
def findInNodes (p : Node → Bool) : List Node → Option Node
  | [] => none
  | n :: rest =>
      match findInNode p n with
      | some m => some m
      | none => findInNodes p rest

end

mutual

/-- BeautifulSoup's `soup.find_all(...)` restricted to one subtree, in document order. -/
def findAllInNode (p : Node → Bool) : Node → List Node
  | .text s => if p (.text s) then [.text s] else []
  | .elem t a cs =>
      (if p (.elem t a cs) then [Node.elem t a cs] else []) ++ findAllInNodes p cs

/-- All matches in pre-order over a forest (document order). -/
def findAllInNodes (p : Node → Bool) : List Node → List Node
  | [] => []
  | n :: rest => findAllInNode p n ++ findAllInNodes p rest

end

mutual

/-- BeautifulSoup's `.text`: concatenation of all descendant strings. -/
def nodeText : Node → String
  | .text s => s
  | .elem _ _ cs => nodesText cs

def nodesText : List Node → String
  | [] => ""
  | n :: rest => nodeText n ++ nodesText rest

end

/-- Matching predicate of `soup.find("input", {"name": nm})`. -/
def isInputNamed (nm : String) (n : Node) : Bool :=
  match n with
  | .elem "input" attrs _ => alGet attrs "name" == some nm
  | _ => false

/-- Matching predicate of
`soup.find("input", {"id": "PasswordSalt", "name": "PasswordSalt"})`. -/
def isSaltInput (n : Node) : Bool :=
  match n with
  | .elem "input" attrs _ =>
      (alGet attrs "id" == some "PasswordSalt") &&
        (alGet attrs "name" == some "PasswordSalt")
  | _ => false

/-- Matching predicate of `find_all("div", class_="lockCard")`: a `div` whose
`class` attribute, split on whitespace, contains `lockCard`. -/
def isLockCard (n : Node) : Bool :=
  match n with
  | .elem "div" attrs _ =>
      match alGet attrs "class" with
      | some s => (classWords s.toList []).contains "lockCard"
      | none => false
  | _ => false

/-! ## The client operations (`class AptusClient`) -/

namespace AptusClient

/-- Models `urljoin(self.base_url, endpoint)`, at the level of detail the verified
claims require: no claim inspects the joined URL, so plain concatenation
stands in for `urllib.parse.urljoin`. -/
def make_url (base endpoint : String) : String :=
  base ++ endpoint

/-- The per-character loop of `_encrypt_password`: `chr(key ^ ord(c))` for
each character, in order; the first out-of-range `chr` raises `ValueError`. -/
def encryptChars (key : Int) : List Nat → Except PyExc (List Nat)
  | [] => .ok []
  | c :: rest =>
    match pyChr (pyXorIntNat key c) with
    | .error e => .error e
    | .ok d =>
      match encryptChars key rest with
      | .error e => .error e
      | .ok ds => .ok (d :: ds)

/-- Embeds `AptusClient._encrypt_password(password_str, salt_str)`.  The password is
a list of Unicode code points (a Python string); the salt is `str | None`. -/
def encrypt_password (password : List Nat) (salt : Option String) :
    Except PyExc (List Nat) :=
  let saltStr :=
    match salt with
    | none => "611"
    | some s => if s = "" then "611" else s
  let key : Int :=
    match pyIntParse saltStr with
    | some k => k
    | none => 611
  encryptChars key password

/-- Embeds `AptusClient._get_login_page_details`: fetch the login page; on any
transport fault, redirect overflow or HTTP error status return `false`; else
scrape the anti-forgery token (mandatory, first `input` named
`__RequestVerificationToken` with a non-empty `value`) and the password salt
(first `input` with `id` and `name` both `PasswordSalt`; falls back to
`"611"`). -/
def get_login_page_details (st : ClientState) (w : World) :
    Bool × ClientState × World :=
  let (res, w') := rawCall w
  match res with
  | .transportError _ => (false, st, w')
  | .tooManyRedirects => (false, st, w')
  | .ok resp =>
    if 400 ≤ resp.status ∧ resp.status < 600 then (false, st, w')
    else
      match findInNodes (isInputNamed "__RequestVerificationToken") resp.dom with
      | none => (false, st, w')
      | some tokenInput =>
        match nodeAttr tokenInput "value" with
        | none => (false, st, w')
        | some v =>
          if v = "" then (false, st, w')
          else
            let st1 := { st with request_verification_token := some v }
            let st2 :=
              match findInNodes isSaltInput resp.dom with
              | some saltInput =>
                match nodeAttr saltInput "value" with
                | some sv =>
                    if sv = "" then { st1 with password_salt := some "611" }
                    else { st1 with password_salt := some sv }
                | none => { st1 with password_salt := some "611" }
              | none => { st1 with password_salt := some "611" }
            (true, st2, w')

/-- The credential prologue of `AptusClient.login`: truthy arguments overwrite
the stored credentials. -/
def applyCredArgs (usernameArg passwordArg : Option String)
    (st : ClientState) : ClientState :=
  let st :=
    match usernameArg with
    | some u => if u = "" then st else { st with username := some u }
    | none => st
  match passwordArg with
  | some p => if p = "" then st else { st with password := some p }
  | none => st

/-- Embeds `AptusClient.login(username, password)`.  Missing/empty credentials or a
failed page fetch fail without touching `_logged_in`; after obfuscating the
password the form is posted, and the result is decided by the final URL and
the logout/locked markers.  The obfuscation `chr` can raise `ValueError`,
which `login` does not catch. -/
def login (usernameArg passwordArg : Option String) (st : ClientState)
    (w : World) : Except PyExc Bool × ClientState × World :=
  let st := applyCredArgs usernameArg passwordArg st
  match st.username, st.password with
  | none, _ => (.ok false, st, w)
  | some _, none => (.ok false, st, w)
  | some uname, some pword =>
    if uname = "" ∨ pword = "" then (.ok false, st, w)
    else
      match get_login_page_details st w with
      | (false, st, w) => (.ok false, st, w)
      | (true, st, w) =>
        match st.request_verification_token, st.password_salt with
        | none, _ => (.ok false, st, w)
        | some _, none => (.ok false, st, w)
        | some tok, some salt =>
          if tok = "" ∨ salt = "" then (.ok false, st, w)
          else
            match encrypt_password (pword.toList.map Char.toNat) (some salt) with
            | .error e => (.error e, st, w)
            | .ok _ =>
              let (res, w) := rawCall w
              match res with
              | .transportError _ => (.ok false, { st with logged_in := false }, w)
              | .tooManyRedirects => (.ok false, { st with logged_in := false }, w)
              | .ok resp =>
                if 400 ≤ resp.status ∧ resp.status < 600 then
                  (.ok false, { st with logged_in := false }, w)
                else if strContains resp.url "Account/Login" then
                  (.ok false, { st with logged_in := false }, w)
                else if strContains resp.text "Log ud" ||
                    strContains resp.text "L&#229;s" ||
                    strContains resp.text "Lås" then
                  (.ok true, { st with logged_in := true, headers := alSet st.headers "X-Requested-With" "XMLHttpRequest" }, w)
                else
                  (.ok false, { st with logged_in := false }, w)

/-- Models `str(e)` for an `HTTPError` raised by `raise_for_status`; the exact text
of the `requests` message is irrelevant to every claim, so a canonical form
of the status and URL stands in for it. -/
def httpErrorStr (status : Nat) (url : String) : String :=
  toString status ++ " Error for url: " ++ url

/-- Embeds `AptusClient._request(method, endpoint, params, data, expect_json)`.
Rejects with the `NotLoggedIn` dict when unauthenticated (unless the endpoint
is the login endpoint); otherwise issues the call on a per-call header copy
and normalises every `requests` failure into an outcome dict.  `params` and
`data` are forwarded to the transport unchanged and are not modelled. -/
def request (st : ClientState) (w : World) (_method endpoint : String)
    (expect_json : Bool) : Except PyExc ReqOutcome × ClientState × World :=
  if st.logged_in = false ∧ strStarts endpoint "Account/Login" = false then
    (.ok .notLoggedIn, st, w)
  else
    let (res, w') := rawCall w
    match res with
    | .transportError m => (.ok (.requestException m), st, w')
    | .tooManyRedirects => (.ok (.requestException "TooManyRedirects"), st, w')
    | .ok resp =>
      if 400 ≤ resp.status ∧ resp.status < 600 then
        match resp.json with
        | some (Json.obj fields) =>
          let msg := (alGet fields "errorMessage").getD (Json.str resp.text)
          let hs := (alGet fields "HeaderStatusText").getD (Json.str "")
          (.ok (.apiError msg hs resp.status), st, w')
        | _ =>
          (.ok (.httpError (httpErrorStr resp.status resp.url)
            (some resp.text) (some resp.status)), st, w')
      else
        if expect_json then
          match resp.json with
          | some j => (.ok (.json j), st, w')
          | none => (.ok (.jsonDecodeError resp.text), st, w')
        else (.ok (.text resp.text), st, w')

/-- Embeds `AptusClient.logout`: always issues the logoff call, always clears
`_logged_in`, the token and the salt, and never raises (the source catches
`Exception`). -/
def logout (st : ClientState) (w : World) :
    Except PyExc (Option String) × ClientState × World :=
  let (res, w') := rawCall w
  let stCleared := { st with logged_in := false, request_verification_token := none, password_salt := none }
  match res with
  | .ok resp =>
    if 400 ≤ resp.status ∧ resp.status < 600 then (.ok none, stCleared, w')
    else (.ok (some resp.text), stCleared, w')
  | .transportError _ => (.ok none, stCleared, w')
  | .tooManyRedirects => (.ok none, stCleared, w')

/-- Coercion `result if isinstance(result, dict) else {}`. -/
def dictResultOrEmpty (r : ReqOutcome) : ReqOutcome :=
  if r.isDict then r else .json (Json.obj [])

/-- Embeds `AptusClient.set_lock_status_temp_data`. -/
def set_lock_status_temp_data (st : ClientState) (w : World) :
    Except PyExc String × ClientState × World :=
  match request st w "GET" "Lock/SetLockStatusTempData" false with
  | (.error e, st, w) => (.error e, st, w)
  | (.ok o, st, w) =>
    match o with
    | .text t => (.ok t, st, w)
    | _ => (.ok "", st, w)

/-- Embeds `AptusClient.get_doorman_lock_status`. -/
def get_doorman_lock_status (st : ClientState) (w : World) :
    Except PyExc (Option ReqOutcome) × ClientState × World :=
  if st.logged_in = false then (.ok none, st, w)
  else
    match set_lock_status_temp_data st w with
    | (.error e, st, w) => (.error e, st, w)
    | (.ok _, st, w) =>
      match request st w "GET" "LockAsync/DoormanLockStatus" true with
      | (.error e, st, w) => (.error e, st, w)
      | (.ok o, st, w) => (.ok (if o.isDict then some o else none), st, w)

/-- Embeds `AptusClient.poll_ongoing_call`. -/
def poll_ongoing_call (st : ClientState) (w : World) :
    Except PyExc ReqOutcome × ClientState × World :=
  match request st w "GET" "Lock/PollOngingCall" true with
  | (.error e, st, w) => (.error e, st, w)
  | (.ok o, st, w) => (.ok (dictResultOrEmpty o), st, w)

/-- Embeds `AptusClient.unlock_entrance_door(lock_id)`: the first `_request` is
wrapped in `try ... except Exception`, whose handler re-logs-in with the
stored credentials and reissues the call once. -/
def unlock_entrance_door (lock_id : Int) (st : ClientState) (w : World) :
    Except PyExc ReqOutcome × ClientState × World :=
  match request st w "GET" ("Lock/UnlockEntryDoor/" ++ toString lock_id) true with
  | (.ok o, st, w) => (.ok (dictResultOrEmpty o), st, w)
  | (.error _, st, w) =>
    match login st.username st.password st w with
    | (.error e, st, w) => (.error e, st, w)
    | (.ok _, st, w) =>
      match request st w "GET" ("Lock/UnlockEntryDoor/" ++ toString lock_id) true with
      | (.error e, st, w) => (.error e, st, w)
      | (.ok o, st, w) => (.ok (dictResultOrEmpty o), st, w)

/-- Embeds `AptusClient.lock_doorman_lock`. -/
def lock_doorman_lock (st : ClientState) (w : World) :
    Except PyExc ReqOutcome × ClientState × World :=
  match request st w "GET" "Lock/LockDoormanLock" true with
  | (.error e, st, w) => (.error e, st, w)
  | (.ok o, st, w) => (.ok (dictResultOrEmpty o), st, w)

/-- Embeds `AptusClient.unlock_doorman_lock(code)`; `code` only feeds the query
string of the transport call. -/
def unlock_doorman_lock (_code : String) (st : ClientState) (w : World) :
    Except PyExc ReqOutcome × ClientState × World :=
  match request st w "GET" "Lock/UnlockDoormanLock" true with
  | (.error e, st, w) => (.error e, st, w)
  | (.ok o, st, w) => (.ok (dictResultOrEmpty o), st, w)

/-- The body of the per-card `try` of `list_available_locks`: parse the id
suffix (`ValueError` is caught, skipping the card) and extract the name from
the card's first inner `div`; a card without an inner `div`, with an empty
one, or whose first child is itself a tag raises an exception `ValueError`
does not cover, crashing the whole scrape. -/
def cardRecord (card : Node) : Except PyExc (Option LockRecord) :=
  let idAttr := (nodeAttr card "id").getD ""
  match pyIntParse ((splitUnderscore idAttr).getLastD "") with
  | none => .ok none
  | some lockId =>
    match findInNodes (fun n => nodeTag n == some "div") (nodeChildren card) with
    | none => .error .attributeError
    | some nameDiv =>
      match nodeChildren nameDiv with
      | [] => .error .indexError
      | first :: _ =>
        match first with
        | .elem _ _ _ => .error .typeError
        | .text s =>
          let mainName := pyStrip s
          let subName :=
            match findInNodes (fun n => nodeTag n == some "span")
                (nodeChildren nameDiv) with
            | some sp => pyStrip (nodeText sp)
            | none => ""
          let fullName :=
            if subName = "" then mainName
            else mainName ++ " (" ++ subName ++ ")"
          .ok (some { id := lockId, name := fullName, raw_id_attr := idAttr })

/-- The scraping loop of `list_available_locks` over the `lockCard` divs. -/
def processCards : List Node → Except PyExc (List LockRecord)
  | [] => .ok []
  | card :: rest =>
    if strStarts ((nodeAttr card "id").getD "") "entranceDoor_" then
      match cardRecord card with
      | .error e => .error e
      | .ok none => processCards rest
      | .ok (some r) =>
        match processCards rest with
        | .error e => .error e
        | .ok rs => .ok (r :: rs)
    else processCards rest

/-- Embeds `AptusClient.list_available_locks`: `None` when unauthenticated; pops the
AJAX marker header, fetches the lock page with **no** `try`/`except` (a
transport fault propagates, skipping the restore), restores the marker when
its old value was truthy, then scrapes the `lockCard` divs. -/
def list_available_locks (st : ClientState) (w : World) :
    Except PyExc (Option (List LockRecord)) × ClientState × World :=
  if st.logged_in = false then (.ok none, st, w)
  else
    let originalXrw := alGet st.headers "X-Requested-With"
    let st := { st with headers := alErase st.headers "X-Requested-With" }
    let (res, w) := rawCall w
    match res with
    | .transportError m => (.error (.requestException m), st, w)
    | .tooManyRedirects => (.error .tooManyRedirects, st, w)
    | .ok resp =>
      let st :=
        match originalXrw with
        | some v =>
            if v = "" then st
            else { st with headers := alSet st.headers "X-Requested-With" v }
        | none => st
      match processCards (findAllInNodes isLockCard resp.dom) with
      | .error e => (.error e, st, w)
      | .ok recs => (.ok (some recs), st, w)

end AptusClient

/-! ## Specification-side lock-list description (for the refinement claim) -/

/-- The record the specification promises for one lock card: an id attribute
with the `entranceDoor_` marker and a numeric suffix yields a record whose id
is the parsed suffix and whose name is `"primary (secondary)"` when a
secondary label exists, else the primary alone; other cards yield nothing. -/
def specLockRecord (card : Node) : Option LockRecord :=
  let idAttr := (nodeAttr card "id").getD ""
  if strStarts idAttr "entranceDoor_" then
    match pyIntParse ((splitUnderscore idAttr).getLastD "") with
    | none => none
    | some n =>
      match findInNodes (fun m => nodeTag m == some "div") (nodeChildren card) with
      | none => none
      | some nameDiv =>
        match nodeChildren nameDiv with
        | Node.text s :: _ =>
          let primary := pyStrip s
          let secondary :=
            match findInNodes (fun m => nodeTag m == some "span")
                (nodeChildren nameDiv) with
            | some sp => pyStrip (nodeText sp)
            | none => ""
          some { id := n,
                 name := if secondary = "" then primary
                   else primary ++ " (" ++ secondary ++ ")",
                 raw_id_attr := idAttr }
        | _ => none
  else none

/-- The specification's postcondition for the scrape: one record per matching
lock card, in document order. -/
def specLockList (doc : List Node) : List LockRecord :=
  (findAllInNodes isLockCard doc).filterMap specLockRecord

/-- A lock card is scrape-safe when, if it carries the entrance marker and a
numeric suffix, its name can actually be extracted: it has an inner `div`
whose first child is a text node.  (On any other matching card the source's
name extraction raises an exception that is not caught.) -/
def cardOk (card : Node) : Bool :=
  if strStarts ((nodeAttr card "id").getD "") "entranceDoor_" then
    match pyIntParse ((splitUnderscore ((nodeAttr card "id").getD "")).getLastD "") with
    | none => true
    | some _ =>
      match findInNodes (fun m => nodeTag m == some "div") (nodeChildren card) with
      | none => false
      | some nameDiv =>
        match nodeChildren nameDiv with
        | Node.text _ :: _ => true
        | _ => false
  else true

/-! ## Concrete fixtures for the concrete-input theorems -/

/-- A fresh, unauthenticated client state (as built by `__init__`). -/
def stFresh : ClientState :=
  ⟨"https://portal.example/AptusPortal/", some "user", some "pw", false, none,
    none, [("User-Agent", "UA")]⟩

/-- An authenticated client state (as left behind by a successful login). -/
def stAuth : ClientState :=
  ⟨"https://portal.example/AptusPortal/", some "user", some "pw", true,
    some "tok", some "611",
    [("User-Agent", "UA"), ("X-Requested-With", "XMLHttpRequest")]⟩

/-- A world whose transport always faults. -/
def wFault : World :=
  ⟨fun _ => RawResult.transportError "connection reset", 0⟩

/-- The login page's anti-forgery token field. -/
def tokenInputNode : Node :=
  .elem "input" [("name", "__RequestVerificationToken"), ("value", "tok123")] []

/-- The login page's password-salt field. -/
def saltInputNode : Node :=
  .elem "input" [("id", "PasswordSalt"), ("name", "PasswordSalt"), ("value", "611")] []

/-- The entrance card of the specification's fixture:
`entranceDoor_42`, name `Main`, sub-label `Street`. -/
def card42 : Node :=
  .elem "div" [("class", "lockCard"), ("id", "entranceDoor_42")]
    [.elem "div" [] [.text "Main", .elem "span" [] [.text "Street"]]]

/-- The doorman card of the specification's fixture. -/
def card7 : Node :=
  .elem "div" [("class", "lockCard"), ("id", "doormanLock_7")] []

/-- An entrance card with a non-numeric id suffix. -/
def cardAbc : Node :=
  .elem "div" [("class", "lockCard"), ("id", "entranceDoor_abc")]
    [.elem "div" [] [.text "X"]]

/-- An entrance card with a numeric suffix but no inner `div` at all. -/
def cardBare : Node :=
  .elem "div" [("class", "lockCard"), ("id", "entranceDoor_5")] []

/-- A 200 response carrying a given DOM. -/
def domResp (dom : List Node) : HttpResponse :=
  ⟨200, "https://portal.example/AptusPortal/Lock", "", none, dom⟩

/-- A world that serves one fixed page. -/
def wPage (dom : List Node) : World :=
  ⟨fun _ => RawResult.ok (domResp dom), 0⟩

/-- The login page as served before authentication. -/
def loginPageResp : HttpResponse :=
  ⟨200, "https://portal.example/AptusPortal/Account/Login", "", none,
    [tokenInputNode, saltInputNode]⟩

/-- A login page carrying only the salt field (no anti-forgery token). -/
def tokenlessPageResp : HttpResponse :=
  ⟨200, "https://portal.example/AptusPortal/Account/Login", "", none,
    [saltInputNode]⟩

/-- A login page whose salt parses to a key too large for `chr`. -/
def hugeSaltPageResp : HttpResponse :=
  ⟨200, "https://portal.example/AptusPortal/Account/Login", "", none,
    [tokenInputNode,
      .elem "input"
        [("id", "PasswordSalt"), ("name", "PasswordSalt"), ("value", "9999999")] []]⟩

/-- The post-login response for bad credentials: the portal re-renders the
login form, so the final URL still contains `Account/Login`. -/
def badCredResp : HttpResponse :=
  ⟨200, "https://portal.example/AptusPortal/Account/Login?ReturnUrl=%2FAptusPortal%2F",
    "login form", none, []⟩

/-- The post-login response for good credentials: a portal page containing the
logout marker. -/
def successResp : HttpResponse :=
  ⟨200, "https://portal.example/AptusPortal/", "<a>Log ud</a>", none, []⟩

/-- A world serving the login page and then a bad-credentials response. -/
def wBadCred : World :=
  ⟨fun i => if i = 0 then RawResult.ok loginPageResp else RawResult.ok badCredResp, 0⟩

/-- A world serving the login page and then a logged-in page. -/
def wGoodCred : World :=
  ⟨fun i => if i = 0 then RawResult.ok loginPageResp else RawResult.ok successResp, 0⟩

/-- A world serving a token-less login page. -/
def wNoToken : World := ⟨fun _ => RawResult.ok tokenlessPageResp, 0⟩

/-- A world serving the huge-salt login page. -/
def wHugeSalt : World := ⟨fun _ => RawResult.ok hugeSaltPageResp, 0⟩

/-! ## Lemmas about the embedded operations -/

theorem request_state (st : ClientState) (w : World) (m ep : String) (ej : Bool) :
    (AptusClient.request st w m ep ej).2.1 = st := by
  unfold AptusClient.request rawCall
  repeat first | rfl | split

theorem request_oracle (st : ClientState) (w : World) (m ep : String) (ej : Bool) :
    (AptusClient.request st w m ep ej).2.2.oracle = w.oracle := by
  unfold AptusClient.request
  simp only [rawCall]
  repeat first | rfl | split

theorem request_isOk (st : ClientState) (w : World) (m ep : String) (ej : Bool) :
    ∃ o, (AptusClient.request st w m ep ej).1 = Except.ok o := by
  unfold AptusClient.request
  simp only [rawCall]
  repeat first | exact ⟨_, rfl⟩ | split

theorem request_calls_le (st : ClientState) (w : World) (m ep : String) (ej : Bool) :
    (AptusClient.request st w m ep ej).2.2.calls ≤ w.calls + 1 := by
  unfold AptusClient.request
  simp only [rawCall]
  repeat first | simp | split

theorem request_notLoggedIn (st : ClientState) (w : World) (m ep : String)
    (ej : Bool) (h : st.logged_in = false)
    (h2 : strStarts ep "Account/Login" = false) :
    AptusClient.request st w m ep ej = (Except.ok ReqOutcome.notLoggedIn, st, w) := by
  unfold AptusClient.request
  rw [if_pos ⟨h, h2⟩]

theorem request_transport (st : ClientState) (w : World) (m ep : String)
    (ej : Bool) (msg : String) (h : st.logged_in = true)
    (h2 : w.oracle w.calls = RawResult.transportError msg) :
    AptusClient.request st w m ep ej =
      (Except.ok (ReqOutcome.requestException msg), st,
        { oracle := w.oracle, calls := w.calls + 1 }) := by
  unfold AptusClient.request
  rw [if_neg (by simp [h])]
  simp only [rawCall, h2]

theorem applyCredArgs_fields (u p : Option String) (st : ClientState) :
    (AptusClient.applyCredArgs u p st).logged_in = st.logged_in
    ∧ (AptusClient.applyCredArgs u p st).request_verification_token
        = st.request_verification_token
    ∧ (AptusClient.applyCredArgs u p st).password_salt = st.password_salt
    ∧ (AptusClient.applyCredArgs u p st).headers = st.headers := by
  unfold AptusClient.applyCredArgs
  repeat' split
  all_goals exact ⟨rfl, rfl, rfl, rfl⟩

theorem glpd_shape (st : ClientState) (w : World) :
    ∃ b st', AptusClient.get_login_page_details st w
        = (b, st', ⟨w.oracle, w.calls + 1⟩)
      ∧ st'.base_url = st.base_url
      ∧ st'.username = st.username
      ∧ st'.password = st.password
      ∧ st'.logged_in = st.logged_in
      ∧ st'.headers = st.headers
      ∧ (b = false → st' = st)
      ∧ (b = true → ∃ t s, t ≠ "" ∧ s ≠ ""
            ∧ st'.request_verification_token = some t
            ∧ st'.password_salt = some s) := by
  unfold AptusClient.get_login_page_details
  simp only [rawCall]
  repeat' split
  all_goals first
    | exact ⟨false, st, rfl, rfl, rfl, rfl, rfl, rfl, fun _ => rfl,
        fun h => absurd h (by decide)⟩
    | (refine ⟨true, _, rfl, rfl, rfl, rfl, rfl, rfl,
          fun h => absurd h (by decide), fun _ => ?_⟩;
       refine ⟨_, _, ?_, ?_, rfl, rfl⟩ <;> first | assumption | decide)

theorem pyChr_error (x : Int) (e : PyExc) (h : pyChr x = Except.error e) :
    e = PyExc.valueError := by
  unfold pyChr at h
  split at h <;> simp_all

theorem encryptChars_error (key : Int) (cs : List Nat) :
    ∀ e, AptusClient.encryptChars key cs = Except.error e → e = PyExc.valueError := by
  induction cs with
  | nil => intro e h; simp [AptusClient.encryptChars] at h
  | cons c rest ih =>
    intro e h
    unfold AptusClient.encryptChars at h
    rcases hc : pyChr (pyXorIntNat key c) with e1 | d
    · rw [hc] at h
      simp only [Except.error.injEq] at h
      subst h
      exact pyChr_error _ _ hc
    · rw [hc] at h
      rcases hr : AptusClient.encryptChars key rest with e2 | ds
      · rw [hr] at h
        simp only [Except.error.injEq] at h
        subst h
        exact ih _ hr
      · rw [hr] at h
        exact absurd h (by simp)

theorem encrypt_password_error (pw : List Nat) (salt : Option String) (e : PyExc)
    (h : AptusClient.encrypt_password pw salt = Except.error e) :
    e = PyExc.valueError := by
  unfold AptusClient.encrypt_password at h
  exact encryptChars_error _ _ _ h

theorem login_cases (u p : Option String) (st : ClientState) (w : World) :
    (AptusClient.login u p st w
        = (Except.ok false, AptusClient.applyCredArgs u p st, w))
    ∨ (∃ st2, AptusClient.login u p st w
          = (Except.ok false, st2, ⟨w.oracle, w.calls + 1⟩)
        ∧ st2.logged_in = st.logged_in
        ∧ st2.password_salt = st.password_salt)
    ∨ (∃ st2, AptusClient.login u p st w
          = (Except.error PyExc.valueError, st2, ⟨w.oracle, w.calls + 1⟩)
        ∧ st2.logged_in = st.logged_in)
    ∨ (∃ st2, AptusClient.login u p st w
          = (Except.ok false, st2, ⟨w.oracle, w.calls + 2⟩)
        ∧ st2.logged_in = false)
    ∨ (∃ st2, AptusClient.login u p st w
          = (Except.ok true, st2, ⟨w.oracle, w.calls + 2⟩)
        ∧ st2.logged_in = true) := by
  obtain ⟨hli, htok, hsalt, hhdr⟩ := applyCredArgs_fields u p st
  unfold AptusClient.login
  set st1 := AptusClient.applyCredArgs u p st with hst1
  rcases hu : st1.username with _ | uname
  · simp only [hu]
    left
    trivial
  · rcases hp : st1.password with _ | pword
    · simp only [hu, hp]
      left
      trivial
    · simp only [hu, hp]
      by_cases hc : uname = "" ∨ pword = ""
      · rw [if_pos hc]
        left
        trivial
      · rw [if_neg hc]
        obtain ⟨b, st2, hg, hbase, huser, hpass, hlog, hhd, hF, hT⟩ :=
          glpd_shape st1 w
        split
        · rename_i stf wf heq
          rw [hg] at heq
          injection heq with hb h2
          injection h2 with hst hw
          subst hb
          subst hst
          subst hw
          refine Or.inr (Or.inl ⟨st2, rfl, ?_, ?_⟩)
          · rw [hF rfl]
            exact hli
          · rw [hF rfl]
            exact hsalt
        · rename_i stt wt heq
          rw [hg] at heq
          injection heq with hb h2
          injection h2 with hst hw
          subst hb
          subst hst
          subst hw
          obtain ⟨t, s, ht, hs, htok2, hsalt2⟩ := hT rfl
          simp only [htok2, hsalt2]
          rw [if_neg (by simp [ht, hs])]
          rcases henc : AptusClient.encrypt_password (pword.toList.map Char.toNat)
              (some s) with e1 | encres
          · simp only [henc]
            obtain rfl := encrypt_password_error _ _ _ henc
            exact Or.inr (Or.inr (Or.inl ⟨_, rfl, hlog.trans hli⟩))
          · simp only [henc, rawCall]
            rcases hor : w.oracle (w.calls + 1) with resp | m | _ <;>
              simp only [hor]
            · split
              · exact Or.inr (Or.inr (Or.inr (Or.inl ⟨_, rfl, rfl⟩)))
              · split
                · exact Or.inr (Or.inr (Or.inr (Or.inl ⟨_, rfl, rfl⟩)))
                · split
                  · exact Or.inr (Or.inr (Or.inr (Or.inr ⟨_, rfl, rfl⟩)))
                  · exact Or.inr (Or.inr (Or.inr (Or.inl ⟨_, rfl, rfl⟩)))
            · exact Or.inr (Or.inr (Or.inr (Or.inl ⟨_, rfl, rfl⟩)))
            · exact Or.inr (Or.inr (Or.inr (Or.inl ⟨_, rfl, rfl⟩)))

theorem request_split (st : ClientState) (w : World) (m ep : String) (ej : Bool) :
    ∃ o w', AptusClient.request st w m ep ej = (Except.ok o, st, w')
      ∧ w'.oracle = w.oracle ∧ w'.calls ≤ w.calls + 1 := by
  obtain ⟨o, ho⟩ := request_isOk st w m ep ej
  exact ⟨o, (AptusClient.request st w m ep ej).2.2,
    Prod.ext ho (Prod.ext (request_state st w m ep ej) rfl),
    request_oracle st w m ep ej, request_calls_le st w m ep ej⟩

theorem poll_shape (st : ClientState) (w : World) :
    ∃ o w', AptusClient.poll_ongoing_call st w = (Except.ok o, st, w') := by
  unfold AptusClient.poll_ongoing_call
  obtain ⟨o, w', h, -, -⟩ := request_split st w "GET" "Lock/PollOngingCall" true
  simp only [h]
  exact ⟨_, _, rfl⟩

theorem lock_doorman_shape (st : ClientState) (w : World) :
    ∃ o w', AptusClient.lock_doorman_lock st w = (Except.ok o, st, w') := by
  unfold AptusClient.lock_doorman_lock
  obtain ⟨o, w', h, -, -⟩ := request_split st w "GET" "Lock/LockDoormanLock" true
  simp only [h]
  exact ⟨_, _, rfl⟩

theorem unlock_doorman_shape (c : String) (st : ClientState) (w : World) :
    ∃ o w', AptusClient.unlock_doorman_lock c st w = (Except.ok o, st, w') := by
  unfold AptusClient.unlock_doorman_lock
  obtain ⟨o, w', h, -, -⟩ := request_split st w "GET" "Lock/UnlockDoormanLock" true
  simp only [h]
  exact ⟨_, _, rfl⟩

theorem set_temp_shape (st : ClientState) (w : World) :
    ∃ s w', AptusClient.set_lock_status_temp_data st w = (Except.ok s, st, w')
      ∧ w'.oracle = w.oracle ∧ w'.calls ≤ w.calls + 1 := by
  unfold AptusClient.set_lock_status_temp_data
  obtain ⟨o, w', h, ho, hc⟩ :=
    request_split st w "GET" "Lock/SetLockStatusTempData" false
  simp only [h]
  cases o <;> exact ⟨_, _, rfl, ho, hc⟩

theorem get_doorman_shape (st : ClientState) (w : World) :
    ∃ r w', AptusClient.get_doorman_lock_status st w = (Except.ok r, st, w') := by
  unfold AptusClient.get_doorman_lock_status
  by_cases hl : st.logged_in = false
  · rw [if_pos hl]
    exact ⟨none, w, rfl⟩
  · rw [if_neg hl]
    obtain ⟨s, w1, h1, -, -⟩ := set_temp_shape st w
    simp only [h1]
    obtain ⟨o, w2, h2, -, -⟩ :=
      request_split st w1 "GET" "LockAsync/DoormanLockStatus" true
    simp only [h2]
    exact ⟨_, _, rfl⟩

theorem unlock_entrance_shape (i : Int) (st : ClientState) (w : World) :
    ∃ o w', AptusClient.unlock_entrance_door i st w = (Except.ok o, st, w') := by
  unfold AptusClient.unlock_entrance_door
  obtain ⟨o, w', h, -, -⟩ :=
    request_split st w "GET" ("Lock/UnlockEntryDoor/" ++ toString i) true
  simp only [h]
  exact ⟨_, _, rfl⟩

theorem logout_shape (st : ClientState) (w : World) :
    (AptusClient.logout st w).2.1.logged_in = false
    ∧ (AptusClient.logout st w).2.1.request_verification_token = none
    ∧ (AptusClient.logout st w).2.1.password_salt = none
    ∧ (AptusClient.logout st w).2.2 = ⟨w.oracle, w.calls + 1⟩
    ∧ ((AptusClient.logout st w).1 = Except.ok (
        match w.oracle w.calls with
        | RawResult.ok resp =>
            if 400 ≤ resp.status ∧ resp.status < 600 then none
            else some resp.text
        | RawResult.transportError _ => none
        | RawResult.tooManyRedirects => none)) := by
  unfold AptusClient.logout
  simp only [rawCall]
  rcases hor : w.oracle w.calls with resp | m | _
  · simp only [hor]
    split <;> refine ⟨?_, ?_, ?_, ?_, ?_⟩ <;> first | rfl | trivial
  · simp only [hor]
    refine ⟨?_, ?_, ?_, ?_, ?_⟩ <;> first | rfl | trivial
  · simp only [hor]
    refine ⟨?_, ?_, ?_, ?_, ?_⟩ <;> first | rfl | trivial

theorem alGet_cons {α : Type} (k' : String) (v' : α) (rest : List (String × α))
    (k : String) :
    alGet ((k', v') :: rest) k = if k' = k then some v' else alGet rest k := rfl

theorem alSet_cons {α : Type} (k' : String) (v' : α) (rest : List (String × α))
    (k : String) (v : α) :
    alSet ((k', v') :: rest) k v
      = if k' = k then (k, v) :: rest else (k', v') :: alSet rest k v := rfl

theorem alErase_cons {α : Type} (k' : String) (v' : α) (rest : List (String × α))
    (k : String) :
    alErase ((k', v') :: rest) k
      = if k' = k then rest else (k', v') :: alErase rest k := rfl

theorem alGet_alSet_self {α : Type} (h : List (String × α)) (k : String) (v : α) :
    alGet (alSet h k v) k = some v := by
  induction h with
  | nil => simp [alSet, alGet]
  | cons kv rest ih =>
    obtain ⟨k', v'⟩ := kv
    rw [alSet_cons]
    by_cases hk : k' = k
    · rw [if_pos hk, alGet_cons, if_pos rfl]
    · rw [if_neg hk, alGet_cons, if_neg hk]
      exact ih

theorem alGet_alSet_ne {α : Type} (h : List (String × α)) (k k2 : String) (v : α)
    (hne : k2 ≠ k) : alGet (alSet h k v) k2 = alGet h k2 := by
  induction h with
  | nil =>
    rw [show alSet ([] : List (String × α)) k v = [(k, v)] from rfl, alGet_cons,
      if_neg (fun hh => hne hh.symm)]
  | cons kv rest ih =>
    obtain ⟨k', v'⟩ := kv
    rw [alSet_cons]
    by_cases hk : k' = k
    · subst hk
      rw [if_pos rfl, alGet_cons, alGet_cons, if_neg (fun hh => hne hh.symm),
        if_neg (fun hh => hne hh.symm)]
    · rw [if_neg hk, alGet_cons, alGet_cons]
      by_cases hk2 : k' = k2
      · rw [if_pos hk2, if_pos hk2]
      · rw [if_neg hk2, if_neg hk2]
        exact ih

theorem alErase_of_none {α : Type} (h : List (String × α)) (k : String)
    (hk : alGet h k = none) : alErase h k = h := by
  induction h with
  | nil => rfl
  | cons kv rest ih =>
    obtain ⟨k', v'⟩ := kv
    rw [alGet_cons] at hk
    rw [alErase_cons]
    by_cases he : k' = k
    · rw [if_pos he] at hk
      exact absurd hk (by simp)
    · rw [if_neg he] at hk
      rw [if_neg he, ih hk]

theorem alGet_restore {α : Type} (h : List (String × α)) (k : String) (v : α)
    (hv : alGet h k = some v) :
    ∀ k2, alGet (alSet (alErase h k) k v) k2 = alGet h k2 := by
  induction h with
  | nil => intro k2; simp [alGet] at hv
  | cons kv rest ih =>
    obtain ⟨k', v'⟩ := kv
    intro k2
    rw [alGet_cons] at hv
    rw [alErase_cons]
    by_cases he : k' = k
    · rw [if_pos he] at hv
      rw [if_pos he]
      by_cases h2 : k = k2
      · subst h2
        rw [alGet_alSet_self, alGet_cons, if_pos he]
        exact hv.symm
      · rw [alGet_alSet_ne _ _ _ _ (fun hh => h2 hh.symm), alGet_cons,
          if_neg (fun hh => h2 (he.symm.trans hh))]
    · rw [if_neg he] at hv
      rw [if_neg he, alSet_cons, if_neg he, alGet_cons, alGet_cons]
      by_cases hk2 : k' = k2
      · rw [if_pos hk2, if_pos hk2]
      · rw [if_neg hk2, if_neg hk2]
        exact ih hv k2

theorem list_locks_state (st : ClientState) (w : World) :
    (AptusClient.list_available_locks st w).2.1.logged_in = st.logged_in
    ∧ (AptusClient.list_available_locks st w).2.1.request_verification_token
        = st.request_verification_token
    ∧ (AptusClient.list_available_locks st w).2.1.password_salt
        = st.password_salt := by
  unfold AptusClient.list_available_locks
  split
  · exact ⟨rfl, rfl, rfl⟩
  · simp only [rawCall]
    rcases hor : w.oracle w.calls with resp | m | _ <;> simp only [hor]
    · repeat' split
      all_goals refine ⟨?_, ?_, ?_⟩ <;> first | rfl | trivial
    · refine ⟨?_, ?_, ?_⟩ <;> first | rfl | trivial
    · refine ⟨?_, ?_, ?_⟩ <;> first | rfl | trivial

theorem list_locks_headers (st : ClientState) (w : World) (resp : HttpResponse)
    (hok : w.oracle w.calls = RawResult.ok resp)
    (hmk : ∀ v, alGet st.headers "X-Requested-With" = some v → v ≠ "") :
    ∀ k, alGet (AptusClient.list_available_locks st w).2.1.headers k
        = alGet st.headers k := by
  unfold AptusClient.list_available_locks
  split
  · intro k
    rfl
  · simp only [rawCall, hok]
    rcases hx : alGet st.headers "X-Requested-With" with _ | v
    · simp only [hx]
      rw [alErase_of_none st.headers _ hx]
      split
      all_goals intro k; rfl
    · simp only [hx]
      rw [if_neg (by simpa using hmk v hx)]
      split
      all_goals intro k; exact alGet_restore st.headers _ v hx k

theorem pyXorIntNat_ofNat (a c : Nat) :
    pyXorIntNat (Int.ofNat a) c = Int.ofNat (a ^^^ c) := rfl

theorem pyChr_ofNat (n : Nat) (h : n ≤ 1114111) :
    pyChr (Int.ofNat n) = Except.ok n := by
  unfold pyChr
  rw [if_pos ⟨Int.ofNat_nonneg n,
    show Int.ofNat n ≤ Int.ofNat 1114111 from Int.ofNat_le.mpr h⟩]
  rfl

theorem xor_xor_cancel (K x : Nat) : K ^^^ (K ^^^ x) = x := by
  rw [← Nat.xor_assoc, Nat.xor_self, Nat.zero_xor]

theorem encryptChars_ofNat (K : Nat) (pw : List Nat)
    (h : ∀ c ∈ pw, K ^^^ c ≤ 1114111) :
    AptusClient.encryptChars (Int.ofNat K) pw
      = Except.ok (pw.map (fun c => K ^^^ c)) := by
  induction pw with
  | nil => rfl
  | cons c rest ih =>
    have hc := h c (List.mem_cons_self c rest)
    simp only [AptusClient.encryptChars, pyXorIntNat_ofNat, pyChr_ofNat _ hc,
      ih (fun c2 hc2 => h c2 (List.mem_cons_of_mem _ hc2)), List.map_cons]

theorem pyIntParse_empty : pyIntParse "" = none := rfl

theorem encrypt_password_ofNat (pw : List Nat) (saltS : String) (K : Nat)
    (hparse : pyIntParse saltS = some (Int.ofNat K))
    (h : ∀ c ∈ pw, K ^^^ c ≤ 1114111) :
    AptusClient.encrypt_password pw (some saltS)
      = Except.ok (pw.map (fun c => K ^^^ c)) := by
  have hne : saltS ≠ "" := by
    intro he
    rw [he, pyIntParse_empty] at hparse
    exact Option.noConfusion hparse
  have hif : (if saltS = "" then "611" else saltS) = saltS := if_neg hne
  simp only [AptusClient.encrypt_password, hif, hparse]
  exact encryptChars_ofNat K pw h

theorem cardRecord_spec (card : Node)
    (hpre : strStarts ((nodeAttr card "id").getD "") "entranceDoor_" = true)
    (hok : cardOk card = true) :
    AptusClient.cardRecord card = Except.ok (specLockRecord card) := by
  unfold cardOk at hok
  rw [if_pos hpre] at hok
  unfold AptusClient.cardRecord specLockRecord
  rw [if_pos hpre]
  rcases hid : pyIntParse ((splitUnderscore ((nodeAttr card "id").getD "")).getLastD "")
      with _ | n
  · simp only [hid]
  · simp only [hid] at hok
    simp only [hid]
    rcases hdiv : findInNodes (fun m => nodeTag m == some "div") (nodeChildren card)
        with _ | nameDiv
    · simp only [hdiv] at hok
      exact Bool.noConfusion hok
    · simp only [hdiv] at hok
      simp only [hdiv]
      rcases hch : nodeChildren nameDiv with _ | ⟨first, restc⟩
      · simp only [hch] at hok
        exact Bool.noConfusion hok
      · simp only [hch] at hok
        simp only [hch]
        cases first with
        | elem t a cs => simp at hok
        | text s => rfl

theorem specLockRecord_none (card : Node)
    (hpre : ¬ strStarts ((nodeAttr card "id").getD "") "entranceDoor_" = true) :
    specLockRecord card = none := by
  unfold specLockRecord
  rw [if_neg hpre]

theorem processCards_spec (cards : List Node)
    (h : ∀ card ∈ cards, cardOk card = true) :
    AptusClient.processCards cards
      = Except.ok (cards.filterMap specLockRecord) := by
  induction cards with
  | nil => rfl
  | cons card rest ih =>
    have hcard := h card (List.mem_cons_self card rest)
    have hrest := ih (fun c hc => h c (List.mem_cons_of_mem _ hc))
    unfold AptusClient.processCards
    simp only [List.filterMap_cons]
    by_cases hpre : strStarts ((nodeAttr card "id").getD "") "entranceDoor_" = true
    · rw [if_pos hpre]
      rw [cardRecord_spec card hpre hcard]
      rcases hs : specLockRecord card with _ | r
      · simp only [hs]
        exact hrest
      · simp only [hs, hrest]
    · rw [if_neg hpre, specLockRecord_none card hpre]
      exact hrest

theorem login_ok_true_loggedIn (u p : Option String) (st : ClientState)
    (w : World) (h : (AptusClient.login u p st w).1 = Except.ok true) :
    (AptusClient.login u p st w).2.1.logged_in = true := by
  rcases login_cases u p st w with h1 | ⟨s2, h2, -, -⟩ | ⟨s2, h2, -⟩ |
    ⟨s2, h2, -⟩ | ⟨s2, h2, hl⟩
  · rw [h1] at h
    exact absurd h (by simp)
  · rw [h2] at h
    exact absurd h (by simp)
  · rw [h2] at h
    exact absurd h (by simp)
  · rw [h2] at h
    exact absurd h (by simp)
  · rw [h2]
    exact hl

theorem login_loggedIn_true (u p : Option String) (st : ClientState) (w : World)
    (h : (AptusClient.login u p st w).2.1.logged_in = true) :
    (AptusClient.login u p st w).1 = Except.ok true ∨ st.logged_in = true := by
  obtain ⟨hli, -, -, -⟩ := applyCredArgs_fields u p st
  rcases login_cases u p st w with h1 | ⟨s2, h2, hl, -⟩ | ⟨s2, h2, hl⟩ |
    ⟨s2, h2, hl⟩ | ⟨s2, h2, hl⟩
  · rw [h1] at h
    exact Or.inr (hli ▸ h)
  · rw [h2] at h
    exact Or.inr (hl ▸ h)
  · rw [h2] at h
    exact Or.inr (hl ▸ h)
  · rw [h2] at h
    rw [hl] at h
    exact Bool.noConfusion h
  · rw [h2]
    exact Or.inl rfl

theorem login_auth_drop (u p : Option String) (st : ClientState) (w : World)
    (hauth : st.logged_in = true)
    (h : (AptusClient.login u p st w).2.1.logged_in = false) :
    (AptusClient.login u p st w).1 = Except.ok false
    ∧ (AptusClient.login u p st w).2.2.calls = w.calls + 2 := by
  obtain ⟨hli, -, -, -⟩ := applyCredArgs_fields u p st
  rcases login_cases u p st w with h1 | ⟨s2, h2, hl, -⟩ | ⟨s2, h2, hl⟩ |
    ⟨s2, h2, hl⟩ | ⟨s2, h2, hl⟩
  · rw [h1] at h
    rw [hli, hauth] at h
    exact Bool.noConfusion h
  · rw [h2] at h
    rw [hl, hauth] at h
    exact Bool.noConfusion h
  · rw [h2] at h
    rw [hl, hauth] at h
    exact Bool.noConfusion h
  · rw [h2]
    exact ⟨rfl, rfl⟩
  · rw [h2] at h
    rw [hl] at h
    exact Bool.noConfusion h

theorem login_error_valueError (u p : Option String) (st : ClientState)
    (w : World) (e : PyExc)
    (h : (AptusClient.login u p st w).1 = Except.error e) :
    e = PyExc.valueError := by
  rcases login_cases u p st w with h1 | ⟨s2, h2, -, -⟩ | ⟨s2, h2, -⟩ |
    ⟨s2, h2, -⟩ | ⟨s2, h2, -⟩
  · rw [h1] at h
    exact absurd h (by simp)
  · rw [h2] at h
    exact absurd h (by simp)
  · rw [h2] at h
    exact (Except.error.inj h).symm
  · rw [h2] at h
    exact absurd h (by simp)
  · rw [h2] at h
    exact absurd h (by simp)

theorem isPrefixOf_cons_ne (a b : Char) (l1 l2 : List Char) (h : ¬ a = b) :
    List.isPrefixOf (a :: l1) (b :: l2) = false := by
  simp [List.isPrefixOf, h]

theorem strStarts_unlock_endpoint (i : Int) :
    strStarts ("Lock/UnlockEntryDoor/" ++ toString i) "Account/Login" = false := by
  rcases toString i with ⟨xs⟩
  exact isPrefixOf_cons_ne 'A' 'L' _ _ (by decide)

theorem glpd_no_token (st : ClientState) (w : World) (resp : HttpResponse)
    (hok : w.oracle w.calls = RawResult.ok resp)
    (hstatus : ¬(400 ≤ resp.status ∧ resp.status < 600))
    (htok :
      match findInNodes (isInputNamed "__RequestVerificationToken") resp.dom with
      | none => True
      | some nd => nodeAttr nd "value" = none ∨ nodeAttr nd "value" = some "") :
    AptusClient.get_login_page_details st w
      = (false, st, ⟨w.oracle, w.calls + 1⟩) := by
  unfold AptusClient.get_login_page_details
  simp only [rawCall, hok]
  rw [if_neg hstatus]
  rcases hf : findInNodes (isInputNamed "__RequestVerificationToken") resp.dom
      with _ | nd
  · simp only [hf]
  · rw [hf] at htok
    simp only [hf]
    rcases htok with hv | hv
    · simp only [hv]
    · simp only [hv, if_true]

/-! ## Claim theorems -/

/-- Claim C1, counterexample.  The claim says a transport-level fault on the
first unlock attempt triggers exactly one re-login and exactly one reissued
unlock call (which would take at least two further transport calls, three in
total).  On the code, `_request` converts the transport fault into the
`RequestException` outcome dict, so `unlock_entrance_door`'s
`except Exception` handler never runs: at this concrete input the client
makes exactly **one** transport call, performs **no** re-login, and returns
the first attempt's fault outcome. -/
theorem C1_counterexample :
    stAuth.logged_in = true
    ∧ (AptusClient.unlock_entrance_door 42 stAuth wFault).1
        = Except.ok (ReqOutcome.requestException "connection reset")
    ∧ (AptusClient.unlock_entrance_door 42 stAuth wFault).2.2.calls = 1 :=
  ⟨rfl, rfl, rfl⟩

/-- Claim C1, amended.  For an authenticated session whose next transport call
faults, `unlock_entrance_door` returns the `RequestException` outcome of
that first attempt directly, leaves the client state untouched, and issues
exactly one network call: no re-login and no retry ever happen on a
transport-level fault, because `_request` catches it and returns an outcome
value instead of raising (the `except Exception` retry path can only fire on
an exception that escapes `_request`). -/
theorem C1_unlock_transport_no_retry (lockId : Int) (st : ClientState)
    (w : World) (msg : String) (hauth : st.logged_in = true)
    (hfault : w.oracle w.calls = RawResult.transportError msg) :
    AptusClient.unlock_entrance_door lockId st w
      = (Except.ok (ReqOutcome.requestException msg), st,
        ⟨w.oracle, w.calls + 1⟩) := by
  unfold AptusClient.unlock_entrance_door
  rw [request_transport st w _ _ _ msg hauth hfault]
  rfl

/-- Claim C1, witness.  The amended theorem applied at a concrete input. -/
theorem C1_witness :
    stAuth.logged_in = true
    ∧ wFault.oracle wFault.calls = RawResult.transportError "connection reset"
    ∧ AptusClient.unlock_entrance_door 7 stAuth wFault
        = (Except.ok (ReqOutcome.requestException "connection reset"), stAuth,
          ⟨wFault.oracle, wFault.calls + 1⟩) :=
  ⟨rfl, rfl,
    C1_unlock_transport_no_retry 7 stAuth wFault "connection reset" rfl rfl⟩

/-- Claim C2, counterexample.  `list_available_locks` fetches the lock page
with no `try`/`except`: a transport-level fault on that fetch propagates out
of the public operation as an uncaught exception instead of being converted
into an outcome value or a `None` sentinel. -/
theorem C2_counterexample :
    (AptusClient.list_available_locks stAuth wFault).1
      = Except.error (PyExc.requestException "connection reset") := rfl

/-- Claim C2, amended.  The containment policy holds for `_request` and for
`logout`, `set_lock_status_temp_data`, `get_doorman_lock_status`,
`poll_ongoing_call`, `unlock_entrance_door`, `lock_doorman_lock` and
`unlock_doorman_lock`: for every state and transport behaviour they return
an outcome or sentinel value and never raise.  `login` raises at most the
`ValueError` of the password obfuscation (portal-supplied salt producing an
out-of-range code point); `list_available_locks` is the exception documented
by the counterexample. -/
theorem C2_outcome_containment :
    (∀ st w m ep ej, ∃ o, (AptusClient.request st w m ep ej).1 = Except.ok o)
    ∧ (∀ st w, ∃ r, (AptusClient.logout st w).1 = Except.ok r)
    ∧ (∀ st w, ∃ s, (AptusClient.set_lock_status_temp_data st w).1 = Except.ok s)
    ∧ (∀ st w, ∃ r, (AptusClient.get_doorman_lock_status st w).1 = Except.ok r)
    ∧ (∀ st w, ∃ o, (AptusClient.poll_ongoing_call st w).1 = Except.ok o)
    ∧ (∀ i st w, ∃ o, (AptusClient.unlock_entrance_door i st w).1 = Except.ok o)
    ∧ (∀ st w, ∃ o, (AptusClient.lock_doorman_lock st w).1 = Except.ok o)
    ∧ (∀ c st w, ∃ o, (AptusClient.unlock_doorman_lock c st w).1 = Except.ok o)
    ∧ (∀ u p st w e, (AptusClient.login u p st w).1 = Except.error e →
        e = PyExc.valueError) := by
  refine ⟨?_, ?_, ?_, ?_, ?_, ?_, ?_, ?_, ?_⟩
  · exact fun st w m ep ej => request_isOk st w m ep ej
  · intro st w
    obtain ⟨-, -, -, -, h⟩ := logout_shape st w
    exact ⟨_, h⟩
  · intro st w
    obtain ⟨s, w', h, -, -⟩ := set_temp_shape st w
    exact ⟨s, by rw [h]⟩
  · intro st w
    obtain ⟨r, w', h⟩ := get_doorman_shape st w
    exact ⟨r, by rw [h]⟩
  · intro st w
    obtain ⟨o, w', h⟩ := poll_shape st w
    exact ⟨o, by rw [h]⟩
  · intro i st w
    obtain ⟨o, w', h⟩ := unlock_entrance_shape i st w
    exact ⟨o, by rw [h]⟩
  · intro st w
    obtain ⟨o, w', h⟩ := lock_doorman_shape st w
    exact ⟨o, by rw [h]⟩
  · intro c st w
    obtain ⟨o, w', h⟩ := unlock_doorman_shape c st w
    exact ⟨o, by rw [h]⟩
  · exact fun u p st w e h => login_error_valueError u p st w e h

/-- Claim C2, witness.  The amended theorem applied at concrete inputs,
including a login whose page salt `"9999999"` makes the obfuscation raise. -/
theorem C2_witness :
    (AptusClient.login (some "u") (some "p") stFresh wHugeSalt).1
        = Except.error PyExc.valueError
    ∧ PyExc.valueError = PyExc.valueError
    ∧ (∃ o, (AptusClient.poll_ongoing_call stFresh wFault).1 = Except.ok o) :=
  ⟨rfl,
    C2_outcome_containment.2.2.2.2.2.2.2.2 (some "u") (some "p") stFresh
      wHugeSalt PyExc.valueError rfl,
    C2_outcome_containment.2.2.2.2.1 stFresh wFault⟩

/-- Claim C3, counterexample.  For the printable password `"a"` (code point 97)
and the positive key `K = 1114112`, the first obfuscation already computes
`chr(1114112 XOR 97) = chr(1114209)`, which is out of Unicode range, so
`_encrypt_password` raises `ValueError` instead of round-tripping: the claim
fails for large positive keys. -/
theorem C3_counterexample :
    pyIntParse "1114112" = some (Int.ofNat 1114112)
    ∧ Except.bind (AptusClient.encrypt_password [97] (some "1114112"))
        (fun q => AptusClient.encrypt_password q (some "1114112"))
      ≠ Except.ok [97] := by
  refine ⟨by decide, ?_⟩
  intro h
  rw [show Except.bind (AptusClient.encrypt_password [97] (some "1114112"))
      (fun q => AptusClient.encrypt_password q (some "1114112"))
      = Except.error PyExc.valueError from rfl] at h
  exact Except.noConfusion h

/-- Claim C3, amended.  The obfuscator is self-inverse for every password (a
list of valid code points) and positive integer key `K` such that every
XORed code point `K XOR c` is still a valid `chr` argument (at most
`0x10FFFF`); without that bound the first application raises `ValueError`,
as the counterexample shows. -/
theorem C3_roundtrip_amended (pw : List Nat) (saltS : String) (K : Nat)
    (hparse : pyIntParse saltS = some (Int.ofNat K)) (hpos : 0 < K)
    (hvalid : ∀ c ∈ pw, c ≤ 1114111)
    (hxor : ∀ c ∈ pw, K ^^^ c ≤ 1114111) :
    Except.bind (AptusClient.encrypt_password pw (some saltS))
      (fun q => AptusClient.encrypt_password q (some saltS))
      = Except.ok pw := by
  rw [encrypt_password_ofNat pw saltS K hparse hxor]
  show AptusClient.encrypt_password (pw.map (fun c => K ^^^ c)) (some saltS)
    = Except.ok pw
  have hx : ∀ d ∈ pw.map (fun c => K ^^^ c), K ^^^ d ≤ 1114111 := by
    intro d hd
    obtain ⟨c, hc, rfl⟩ := List.mem_map.mp hd
    rw [xor_xor_cancel]
    exact hvalid c hc
  rw [encrypt_password_ofNat _ saltS K hparse hx, List.map_map]
  have hcomp : ((fun c => K ^^^ c) ∘ fun c => K ^^^ c) = fun c : Nat => c := by
    funext x
    simp only [Function.comp]
    exact xor_xor_cancel K x
  rw [hcomp]
  simp

/-- Claim C3, witness.  The amended round trip at the password `"hej"`
(code points 104, 101, 106) and key 611. -/
theorem C3_witness :
    pyIntParse "611" = some (Int.ofNat 611) ∧ 0 < 611
    ∧ (∀ c ∈ [104, 101, 106], c ≤ 1114111)
    ∧ (∀ c ∈ [104, 101, 106], 611 ^^^ c ≤ 1114111)
    ∧ Except.bind (AptusClient.encrypt_password [104, 101, 106] (some "611"))
        (fun q => AptusClient.encrypt_password q (some "611"))
        = Except.ok [104, 101, 106] :=
  ⟨by decide, by decide, by decide, by decide,
    C3_roundtrip_amended [104, 101, 106] "611" 611 (by decide) (by decide)
      (by decide) (by decide)⟩

/-- Claim C4, counterexample.  With an unauthenticated session,
`get_doorman_lock_status` returns the Python `None` sentinel, not the
`NotLoggedIn` outcome dict the claim promises for every authenticated
operation (and no network call is made). -/
theorem C4_counterexample :
    stFresh.logged_in = false
    ∧ (AptusClient.get_doorman_lock_status stFresh wFault).1 = Except.ok none
    ∧ (AptusClient.get_doorman_lock_status stFresh wFault).1
        ≠ Except.ok (some ReqOutcome.notLoggedIn)
    ∧ (AptusClient.get_doorman_lock_status stFresh wFault).2.2.calls
        = wFault.calls := by
  refine ⟨rfl, rfl, ?_, rfl⟩
  intro h
  rw [show (AptusClient.get_doorman_lock_status stFresh wFault).1
      = Except.ok none from rfl] at h
  simp at h

/-- Claim C4, amended.  With `is_authenticated = false`, every authenticated
operation returns without any network call (state and world unchanged): the
`_request`-based operations (`poll_ongoing_call`, `unlock_entrance_door`,
`lock_doorman_lock`, `unlock_doorman_lock`) return the `NotLoggedIn` outcome
dict, `set_lock_status_temp_data` returns the `""` sentinel, and
`get_doorman_lock_status` and `list_available_locks` return the `None`
sentinel rather than the `NotLoggedIn` outcome. -/
theorem C4_unauthenticated_guard (st : ClientState) (w : World)
    (h : st.logged_in = false) :
    (∀ m ep ej, strStarts ep "Account/Login" = false →
        AptusClient.request st w m ep ej
          = (Except.ok ReqOutcome.notLoggedIn, st, w))
    ∧ AptusClient.poll_ongoing_call st w
        = (Except.ok ReqOutcome.notLoggedIn, st, w)
    ∧ (∀ i, AptusClient.unlock_entrance_door i st w
        = (Except.ok ReqOutcome.notLoggedIn, st, w))
    ∧ AptusClient.lock_doorman_lock st w
        = (Except.ok ReqOutcome.notLoggedIn, st, w)
    ∧ (∀ c, AptusClient.unlock_doorman_lock c st w
        = (Except.ok ReqOutcome.notLoggedIn, st, w))
    ∧ AptusClient.set_lock_status_temp_data st w = (Except.ok "", st, w)
    ∧ AptusClient.get_doorman_lock_status st w = (Except.ok none, st, w)
    ∧ AptusClient.list_available_locks st w = (Except.ok none, st, w) := by
  refine ⟨?_, ?_, ?_, ?_, ?_, ?_, ?_, ?_⟩
  · exact fun m ep ej hep => request_notLoggedIn st w m ep ej h hep
  · unfold AptusClient.poll_ongoing_call
    rw [request_notLoggedIn st w _ _ _ h (by decide)]
    rfl
  · intro i
    unfold AptusClient.unlock_entrance_door
    rw [request_notLoggedIn st w _ _ _ h (strStarts_unlock_endpoint i)]
    rfl
  · unfold AptusClient.lock_doorman_lock
    rw [request_notLoggedIn st w _ _ _ h (by decide)]
    rfl
  · intro c
    unfold AptusClient.unlock_doorman_lock
    rw [request_notLoggedIn st w _ _ _ h (by decide)]
    rfl
  · unfold AptusClient.set_lock_status_temp_data
    rw [request_notLoggedIn st w _ _ _ h (by decide)]
  · unfold AptusClient.get_doorman_lock_status
    rw [if_pos h]
  · unfold AptusClient.list_available_locks
    rw [if_pos h]

/-- Claim C4, witness.  The amended theorem applied at a fresh unauthenticated
client. -/
theorem C4_witness :
    stFresh.logged_in = false
    ∧ AptusClient.poll_ongoing_call stFresh wFault
        = (Except.ok ReqOutcome.notLoggedIn, stFresh, wFault)
    ∧ AptusClient.list_available_locks stFresh wFault
        = (Except.ok none, stFresh, wFault) :=
  ⟨rfl, (C4_unauthenticated_guard stFresh wFault rfl).2.1,
    (C4_unauthenticated_guard stFresh wFault rfl).2.2.2.2.2.2.2⟩

/-- Claim C5, counterexample.  A bad-credential login attempt from the
Authenticated state: every transport call succeeds (no transport fault), the
operation is `login`, not `logout`, and no authenticated request is issued
(so nothing could be "detected" as an invalid session) — yet the session
drops to Unauthenticated, a transition outside the claim's "exactly" list. -/
theorem C5_counterexample :
    stAuth.logged_in = true
    ∧ (∀ i, (wBadCred.oracle i).isOk = true)
    ∧ (AptusClient.login (some "user") (some "pw") stAuth wBadCred).1
        = Except.ok false
    ∧ (AptusClient.login (some "user") (some "pw") stAuth wBadCred).2.1.logged_in
        = false := by
  refine ⟨rfl, ?_, rfl, rfl⟩
  intro i
  by_cases hi : i = 0 <;> simp [wBadCred, RawResult.isOk, hi]

/-- Claim C5, amended.  The session state machine of the code: no operation
other than `login` and `logout` ever changes `_logged_in` (in particular
`_request` never patches the state, so there is no invalid-session
detection); `logout` always drops to Unauthenticated; `login` ends
Authenticated exactly when it returns `true`, which requires the full fetch,
obfuscate and submit sequence; and from the Authenticated state the session
drops to Unauthenticated exactly on `logout` or on a `login` attempt that
reaches the credential-submission phase and fails there (bad-credential
redirect, missing markers, HTTP error status, or a transport fault on the
post — observable as `login` returning `false` after exactly two transport
calls).  A login attempt failing before submission leaves the flag
untouched. -/
theorem C5_session_transitions :
    (∀ st w m ep ej, (AptusClient.request st w m ep ej).2.1 = st)
    ∧ (∀ st w, (AptusClient.poll_ongoing_call st w).2.1 = st)
    ∧ (∀ i st w, (AptusClient.unlock_entrance_door i st w).2.1 = st)
    ∧ (∀ st w, (AptusClient.lock_doorman_lock st w).2.1 = st)
    ∧ (∀ c st w, (AptusClient.unlock_doorman_lock c st w).2.1 = st)
    ∧ (∀ st w, (AptusClient.set_lock_status_temp_data st w).2.1 = st)
    ∧ (∀ st w, (AptusClient.get_doorman_lock_status st w).2.1 = st)
    ∧ (∀ st w, (AptusClient.list_available_locks st w).2.1.logged_in
        = st.logged_in)
    ∧ (∀ st w, (AptusClient.logout st w).2.1.logged_in = false)
    ∧ (∀ u p st w, (AptusClient.login u p st w).1 = Except.ok true →
        (AptusClient.login u p st w).2.1.logged_in = true)
    ∧ (∀ u p st w, (AptusClient.login u p st w).2.1.logged_in = true →
        (AptusClient.login u p st w).1 = Except.ok true
          ∨ st.logged_in = true)
    ∧ (∀ u p st w, st.logged_in = true →
        (AptusClient.login u p st w).2.1.logged_in = false →
        (AptusClient.login u p st w).1 = Except.ok false
          ∧ (AptusClient.login u p st w).2.2.calls = w.calls + 2) := by
  refine ⟨?_, ?_, ?_, ?_, ?_, ?_, ?_, ?_, ?_, ?_, ?_, ?_⟩
  · exact fun st w m ep ej => request_state st w m ep ej
  · intro st w
    obtain ⟨o, w', hsh⟩ := poll_shape st w
    rw [hsh]
  · intro i st w
    obtain ⟨o, w', hsh⟩ := unlock_entrance_shape i st w
    rw [hsh]
  · intro st w
    obtain ⟨o, w', hsh⟩ := lock_doorman_shape st w
    rw [hsh]
  · intro c st w
    obtain ⟨o, w', hsh⟩ := unlock_doorman_shape c st w
    rw [hsh]
  · intro st w
    obtain ⟨s, w', hsh, -, -⟩ := set_temp_shape st w
    rw [hsh]
  · intro st w
    obtain ⟨r, w', hsh⟩ := get_doorman_shape st w
    rw [hsh]
  · exact fun st w => (list_locks_state st w).1
  · exact fun st w => (logout_shape st w).1
  · exact fun u p st w h => login_ok_true_loggedIn u p st w h
  · exact fun u p st w h => login_loggedIn_true u p st w h
  · exact fun u p st w h1 h2 => login_auth_drop u p st w h1 h2

/-- Claim C5, witness.  The amended theorem at concrete inputs: a successful
login ends Authenticated, and a bad-credential re-login from Authenticated
returns `false` after exactly two transport calls. -/
theorem C5_witness :
    (AptusClient.login (some "u") (some "p") stFresh wGoodCred).2.1.logged_in
        = true
    ∧ (AptusClient.login (some "user") (some "pw") stAuth wBadCred).1
        = Except.ok false
    ∧ (AptusClient.login (some "user") (some "pw") stAuth wBadCred).2.2.calls
        = wBadCred.calls + 2 :=
  ⟨C5_session_transitions.2.2.2.2.2.2.2.2.2.1 (some "u") (some "p") stFresh
      wGoodCred rfl,
    (C5_session_transitions.2.2.2.2.2.2.2.2.2.2.2 (some "user") (some "pw")
      stAuth wBadCred rfl rfl).1,
    (C5_session_transitions.2.2.2.2.2.2.2.2.2.2.2 (some "user") (some "pw")
      stAuth wBadCred rfl rfl).2⟩

/-- Claim C6.  Salt fallback: obfuscating with salt `None`, `""`, or
`"not-a-number"` produces exactly the same output as obfuscating with salt
`"611"`, for every password — the key defaults to 611 whenever the salt is
absent, empty, or not parseable as an integer. -/
theorem C6_salt_fallback (pw : List Nat) :
    AptusClient.encrypt_password pw none
        = AptusClient.encrypt_password pw (some "611")
    ∧ AptusClient.encrypt_password pw (some "")
        = AptusClient.encrypt_password pw (some "611")
    ∧ AptusClient.encrypt_password pw (some "not-a-number")
        = AptusClient.encrypt_password pw (some "611") :=
  ⟨rfl, rfl, rfl⟩

/-- Claim C7, counterexample.  A lock card with the entrance prefix and the
numeric suffix 5 but no inner `div`: the claim promises exactly one record
for it, but the scrape crashes with an uncaught exception (`None.contents`),
failing the whole operation instead. -/
theorem C7_counterexample :
    strStarts ((nodeAttr cardBare "id").getD "") "entranceDoor_" = true
    ∧ pyIntParse ((splitUnderscore ((nodeAttr cardBare "id").getD "")).getLastD "")
        = some 5
    ∧ (AptusClient.list_available_locks stAuth (wPage [cardBare])).1
        = Except.error PyExc.attributeError :=
  ⟨rfl, rfl, rfl⟩

/-- Claim C7, amended.  Provided every entrance-prefixed, numeric-suffix lock
card is well-formed (has an inner `div` whose first child is a text node —
otherwise the scrape raises, as the counterexample shows), an authenticated
`list_available_locks` returns exactly the specification's list: one record
per matching card in document order, with the id parsed from the suffix and
the name `"primary (secondary)"` when a secondary label exists, else the
primary alone; non-numeric-suffix cards and non-entrance cards are skipped
without failing the operation. -/
theorem C7_scrape_postcondition (st : ClientState) (w : World)
    (resp : HttpResponse) (hauth : st.logged_in = true)
    (hok : w.oracle w.calls = RawResult.ok resp)
    (hcards : ∀ card ∈ findAllInNodes isLockCard resp.dom, cardOk card = true) :
    (AptusClient.list_available_locks st w).1
      = Except.ok (some (specLockList resp.dom)) := by
  unfold AptusClient.list_available_locks
  rw [if_neg (by simp [hauth])]
  simp only [rawCall, hok]
  rcases hx : alGet st.headers "X-Requested-With" with _ | v <;>
    simp only [hx] <;> rw [processCards_spec _ hcards] <;> rfl

/-- Claim C7, witness.  The amended theorem at the specification's fixture:
cards `entranceDoor_42` (name `Main`, sub-label `Street`) and
`doormanLock_7` yield exactly `[{id := 42, name := "Main (Street)"}]`. -/
theorem C7_witness :
    stAuth.logged_in = true
    ∧ (wPage [card42, card7]).oracle (wPage [card42, card7]).calls
        = RawResult.ok (domResp [card42, card7])
    ∧ (∀ card ∈ findAllInNodes isLockCard (domResp [card42, card7]).dom,
        cardOk card = true)
    ∧ (AptusClient.list_available_locks stAuth (wPage [card42, card7])).1
        = Except.ok (some [⟨42, "Main (Street)", "entranceDoor_42"⟩]) := by
  refine ⟨rfl, rfl, by decide, ?_⟩
  rw [C7_scrape_postcondition stAuth (wPage [card42, card7])
    (domResp [card42, card7]) rfl rfl (by decide)]
  rfl

/-- Claim C8, counterexample.  With the AJAX marker present in the session
headers and a transport fault on the lock-page fetch, the fault propagates
before the restore line runs: the marker is gone on this (exceptional) exit
path, so the headers upon return differ from those upon entry. -/
theorem C8_counterexample :
    alGet stAuth.headers "X-Requested-With" = some "XMLHttpRequest"
    ∧ (AptusClient.list_available_locks stAuth wFault).1
        = Except.error (PyExc.requestException "connection reset")
    ∧ alGet (AptusClient.list_available_locks stAuth wFault).2.1.headers
        "X-Requested-With" = none :=
  ⟨rfl, rfl, rfl⟩

/-- Claim C8, amended.  Whenever the lock-page fetch returns a response (no
transport exception) and the stored AJAX marker is absent or non-empty,
`list_available_locks` leaves the session's default headers extensionally
unchanged — the marker is popped before the fetch and restored right after
it, on success and on scrape failure alike.  On the exceptional exit path of
a transport fault the restore is skipped (see the counterexample). -/
theorem C8_header_restore (st : ClientState) (w : World) (resp : HttpResponse)
    (hok : w.oracle w.calls = RawResult.ok resp)
    (hmk : ∀ v, alGet st.headers "X-Requested-With" = some v → v ≠ "") :
    ∀ k, alGet (AptusClient.list_available_locks st w).2.1.headers k
        = alGet st.headers k :=
  list_locks_headers st w resp hok hmk

/-- Claim C8, witness.  The amended theorem at the lock-page fixture: the
marker is intact after the call. -/
theorem C8_witness :
    (wPage [card42, card7]).oracle (wPage [card42, card7]).calls
        = RawResult.ok (domResp [card42, card7])
    ∧ alGet (AptusClient.list_available_locks stAuth
        (wPage [card42, card7])).2.1.headers "X-Requested-With"
        = some "XMLHttpRequest" := by
  refine ⟨rfl, ?_⟩
  rw [C8_header_restore stAuth (wPage [card42, card7]) (domResp [card42, card7])
    rfl ?hv "X-Requested-With"]
  · rfl
  case hv =>
    intro v hv
    have h0 : alGet stAuth.headers "X-Requested-With" = some "XMLHttpRequest" :=
      rfl
    rw [h0] at hv
    rw [(Option.some.inj hv).symm]
    decide

/-- Claim C9.  If the fetched login page has no usable anti-forgery token field
(no such input, or one with a missing/empty `value`), `login()` returns
`false`, the session stays unauthenticated, and the password salt stays
unset for a client that had not populated it — the failing fetch returns
before the salt extraction runs. -/
theorem C9_missing_token (st : ClientState) (w : World) (u p : Option String)
    (resp : HttpResponse)
    (hunauth : st.logged_in = false)
    (hsalt : st.password_salt = none)
    (hok : w.oracle w.calls = RawResult.ok resp)
    (hstatus : ¬(400 ≤ resp.status ∧ resp.status < 600))
    (htok :
      match findInNodes (isInputNamed "__RequestVerificationToken") resp.dom with
      | none => True
      | some nd => nodeAttr nd "value" = none ∨ nodeAttr nd "value" = some "") :
    (AptusClient.login u p st w).1 = Except.ok false
    ∧ (AptusClient.login u p st w).2.1.logged_in = false
    ∧ (AptusClient.login u p st w).2.1.password_salt = none := by
  obtain ⟨hli, -, hsa, -⟩ := applyCredArgs_fields u p st
  unfold AptusClient.login
  set st1 := AptusClient.applyCredArgs u p st with hst1
  rcases hu : st1.username with _ | uname
  · simp only [hu]
    exact ⟨by trivial, hli.trans hunauth, hsa.trans hsalt⟩
  · rcases hp : st1.password with _ | pword
    · simp only [hu, hp]
      exact ⟨by trivial, hli.trans hunauth, hsa.trans hsalt⟩
    · simp only [hu, hp]
      by_cases hc : uname = "" ∨ pword = ""
      · rw [if_pos hc]
        exact ⟨by trivial, hli.trans hunauth, hsa.trans hsalt⟩
      · rw [if_neg hc]
        rw [glpd_no_token st1 w resp hok hstatus htok]
        exact ⟨by trivial, hli.trans hunauth, hsa.trans hsalt⟩

/-- Claim C9, witness.  The theorem at a fresh client and a login page carrying
a salt field but no token field: `login` fails, the session stays
unauthenticated, and the salt stays `None`. -/
theorem C9_witness :
    stFresh.logged_in = false
    ∧ stFresh.password_salt = none
    ∧ wNoToken.oracle wNoToken.calls = RawResult.ok tokenlessPageResp
    ∧ (AptusClient.login (some "user") (some "pw") stFresh wNoToken).1
        = Except.ok false
    ∧ (AptusClient.login (some "user") (some "pw") stFresh
        wNoToken).2.1.password_salt = none := by
  refine ⟨rfl, rfl, rfl, ?_, ?_⟩
  · exact (C9_missing_token stFresh wNoToken (some "user") (some "pw")
      tokenlessPageResp rfl rfl rfl (by decide) (by trivial)).1
  · exact (C9_missing_token stFresh wNoToken (some "user") (some "pw")
      tokenlessPageResp rfl rfl rfl (by decide) (by trivial)).2.2

/-- Claim C10.  `logout()` never raises: on every exit path — a response with a
non-error status, an HTTP error status, or any transport exception — it
leaves the session unauthenticated with the anti-forgery token and the
password salt cleared to `None`, returning the response text on success and
`None` on failure. -/
theorem C10_logout_total (st : ClientState) (w : World) :
    (AptusClient.logout st w).2.1.logged_in = false
    ∧ (AptusClient.logout st w).2.1.request_verification_token = none
    ∧ (AptusClient.logout st w).2.1.password_salt = none
    ∧ ((AptusClient.logout st w).1 = Except.ok (
        match w.oracle w.calls with
        | RawResult.ok resp =>
            if 400 ≤ resp.status ∧ resp.status < 600 then none
            else some resp.text
        | RawResult.transportError _ => none
        | RawResult.tooManyRedirects => none)) := by
  obtain ⟨h1, h2, h3, -, h5⟩ := logout_shape st w
  exact ⟨h1, h2, h3, h5⟩
